import Mathlib

/-!
Verification of the feature-extraction and similarity-graph pipeline of the
`dataset_analyzer` repository.

The development shallowly embeds the relevant parts of
`src/tools/feature_extractor.py`, `src/tools/graph_builder.py` and the
store interaction of `src/tools/llm_manager.py` callers.

Modelling conventions:
* polars/pandas column values are modelled as `Option String` (a `none` is a
  null); the ordering used by polars `min`/`max` on the column's value domain
  is modelled by the `String` order.  The attempted
  `str.to_datetime(errors='ignore')` conversion of string columns raises
  `TypeError` — polars' `to_datetime` accepts no `errors` keyword, that is
  pandas' API — which the local `except (ValueError, TypeError): pass`
  swallows, so the `datetime_str` classification is dead code; the `parse`
  parameter records the attempted conversion but never influences any
  result.
* Python machine floats are modelled exactly: statistics that the claims
  inspect are rationals; cosine similarities (which involve a square root)
  live in `ℝ`.
* Python `a / b` raises `ZeroDivisionError` when `b = 0`; fallible code is
  embedded with `Except`.
* `round(x, 2)` is modelled as exact round-half-to-even at two decimals.
-/

namespace DatasetAnalyzer

/-! ## Column data (polars `Series`) -/

/-- The polars dtypes that `get_feature_metadata` distinguishes:
`is_temporal()`, `== pl.Boolean`, `is_numeric()` (split by `is_integer()` /
`is_float()`), `== pl.Utf8 / pl.String`, and everything else. -/
inductive Dtype
  | tInt
  | tFloat
  | tBool
  | tDatetime
  | tString
  | tObject
deriving DecidableEq

def dtypeName : Dtype → String
  | .tInt => "Int64"
  | .tFloat => "Float64"
  | .tBool => "Boolean"
  | .tDatetime => "Datetime"
  | .tString => "String"
  | .tObject => "Object"

/-- One column of a sampled dataset: its dtype tag and its cell values
(`none` is a null). -/
structure Series where
  dtype : Dtype
  values : List (Option String)
deriving DecidableEq

/-- `series.drop_nulls()`. -/
def Series.dropNulls (s : Series) : List String := s.values.filterMap id

/-- `series.null_count()`. -/
def Series.nullCount (s : Series) : Nat := s.values.countP (fun v => v.isNone)

/-- Exact round-half-to-even at two decimal places, modelling Python's
`round(x, 2)`. -/
def round2 (q : ℚ) : ℚ :=
  let x := q * 100
  let f : ℤ := ⌊x⌋
  let r : ℚ := x - f
  let n : ℤ :=
    if r < 1/2 then f
    else if 1/2 < r then f + 1
    else if f % 2 = 0 then f else f + 1
  (n : ℚ) / 100

/-- `str(series.min())`: the minimum of a value list, `"None"` for the
polars null that `min` returns on an empty series. -/
def strMin (xs : List String) : String := (xs.min?).getD "None"

/-- `str(series.max())`. -/
def strMax (xs : List String) : String := (xs.max?).getD "None"

/-- `value_counts()` rendered as a value → count mapping, in first-occurrence
order (polars does not guarantee an order; no claim inspects it). -/
def valueCountsOf (xs : List String) : List (String × Nat) :=
  xs.dedup.map (fun v => (v, xs.count v))

/-- `non_null_series.str.len_chars().mean()`: mean character length.
(The source only evaluates it on a non-empty series; on `[]` we return `0`
where polars would return a null.) -/
def avgLen (xs : List String) : ℚ :=
  ((xs.map (fun v => (v.length : ℚ))).sum) / (xs.length : ℚ)

/-- The type-dependent `descriptive_statistics` summaries produced by
`get_feature_metadata`.  The `describe()` summary of a numeric series is an
external polars computation; it is carried as the list of non-null values it
is a function of (no claim inspects its contents). -/
inductive DescStats
  | minMax (mn mx : String)
  | valueCounts (counts : List (String × Nat))
  | describeSummary (vals : List String)
  | noStats
deriving DecidableEq

/-- The metadata dictionary built by `get_feature_metadata`
(`feature_type` is `""` until a branch sets it; the fall-through sets
`"unknown"`). -/
structure Metadata where
  dtype : String
  nan_percentage : ℚ
  num_unique : Nat
  uniqueness_ratio : ℚ
  sample_values : List String
  feature_type : String
  descriptive_statistics : DescStats
deriving DecidableEq

/-- `feature_extractor.get_feature_metadata` (src/tools/feature_extractor.py,
lines 63–183).  Line 71 divides `series.null_count()` by `len(series)` with
no guard, so a zero-row series raises `ZeroDivisionError`; only
`uniqueness_ratio` (line 72) is guarded.  `parse` stands for the elementwise
date conversion the source attempts on string columns (line 149); that call
raises `TypeError` (polars' `to_datetime` has no `errors` keyword), which
the `except (ValueError, TypeError): pass` on line 158 swallows, so the
result is never consulted — the `_parse` parameter only records the dead
call site. -/
def get_feature_metadata (_parse : String → Option String) (series : Series) :
    Except String Metadata :=
  let dtype := series.dtype
  let non_null_series := series.dropNulls
  let num_unique := non_null_series.dedup.length
  let total_values := series.values.length
  if total_values = 0 then
    .error "ZeroDivisionError: division by zero"
  else
    let nan_percentage : ℚ := (series.nullCount : ℚ) / (total_values : ℚ) * 100
    let uniqueness_ratio : ℚ :=
      if total_values > 0 then (num_unique : ℚ) / (total_values : ℚ) else 0
    let base : Metadata :=
      { dtype := dtypeName dtype
        nan_percentage := round2 nan_percentage
        num_unique := num_unique
        uniqueness_ratio := round2 uniqueness_ratio
        sample_values := non_null_series.take 5
        feature_type := ""
        descriptive_statistics := .noStats }
    -- 1. Datetime Type
    if dtype = .tDatetime then
      .ok { base with
            feature_type := "datetime"
            descriptive_statistics :=
              .minMax (strMin non_null_series) (strMax non_null_series) }
    -- 2. Boolean Type
    else if dtype = .tBool then
      .ok { base with
            feature_type := "boolean"
            descriptive_statistics := .valueCounts (valueCountsOf non_null_series) }
    -- 3. Numeric Types (Int, Float)
    else if dtype = .tInt ∨ dtype = .tFloat then
      if uniqueness_ratio > 95/100 then
        .ok { base with feature_type := "id" }
      else if num_unique < 20 ∧ dtype = .tInt then
        .ok { base with
              feature_type := "categorical_int"
              descriptive_statistics := .valueCounts (valueCountsOf non_null_series) }
      else if dtype = .tFloat then
        .ok { base with
              feature_type := "continuous"
              descriptive_statistics := .describeSummary non_null_series }
      else
        .ok { base with
              feature_type := "discrete"
              descriptive_statistics := .describeSummary non_null_series }
    -- 4. String Type.  The source first tries
    -- `non_null_series.str.to_datetime(errors='ignore')`; that call raises
    -- `TypeError` (no `errors` keyword in polars), which the
    -- `except (ValueError, TypeError): pass` swallows, so the `datetime_str`
    -- branch guarded by `not datetime_series.is_null().all()` is dead code:
    -- control always continues with the uniqueness test below.
    else if dtype = .tString then
      if uniqueness_ratio > 9/10 then
        if avgLen non_null_series > 50 then
          .ok { base with feature_type := "text" }
        else
          .ok { base with feature_type := "id_str" }
      else
        .ok { base with
              feature_type := "categorical_str"
              descriptive_statistics :=
                .valueCounts ((valueCountsOf non_null_series).take 10) }
    else
      .ok { base with feature_type := "unknown" }

/-! ## Similarity graph builder (src/tools/graph_builder.py) -/

/-- One stored feature as `build_graph` reads it back from the `features`
collection: its metadata's `dataset_id` and `column_name`, and its embedding
vector. -/
structure FeatRecord where
  dataset_id : String
  column_name : String
  embedding : List ℚ
deriving DecidableEq

/-- Python's `s.split(sep)` for a one-character separator, implemented
structurally over the character list (Lean's `String.splitOn` is not
kernel-reducible, which concrete evaluations need).  Always returns at
least one piece. -/
def splitChar (c : Char) : List Char → List (List Char)
  | [] => [[]]
  | ch :: rest =>
    match splitChar c rest with
    | [] => [[]]
    | cur :: others =>
      if ch = c then [] :: cur :: others
      else (ch :: cur) :: others

/-- `meta['dataset_id'].split('\\')[-1] if '\\' in meta['dataset_id'] else
meta['dataset_id'].split('/')[-1]` — collapse a dataset id to its base
filename. -/
def datasetName (s : String) : String :=
  if s.toList.contains '\\' then
    ((splitChar '\\' s.toList).getLastD s.toList).asString
  else
    ((splitChar '/' s.toList).getLastD s.toList).asString

/-- `np.dot` of two embedding vectors (the source only compares embeddings of
one fixed dimensionality). -/
def dotProduct (e1 e2 : List ℚ) : ℚ := (List.zipWith (· * ·) e1 e2).sum

/-- Sum of squares; `np.linalg.norm e = Real.sqrt (sumSq e)`. -/
def sumSq (e : List ℚ) : ℚ := (e.map (fun x => x * x)).sum

/-- Lines 104–111 of `build_graph`: cosine similarity of two embeddings,
`0` when either norm fails the `norm1 > 0 and norm2 > 0` guard. -/
noncomputable def cosineSim (e1 e2 : List ℚ) : ℝ :=
  let dot_product : ℝ := (dotProduct e1 e2 : ℚ)
  let norm1 : ℝ := Real.sqrt ((sumSq e1 : ℚ) : ℝ)
  let norm2 : ℝ := Real.sqrt ((sumSq e2 : ℚ) : ℝ)
  if 0 < norm1 ∧ 0 < norm2 then dot_product / (norm1 * norm2) else 0

/-- The contribution label `f"{feature1} ↔ {feature2} ({similarity:.3f})"`,
carried as the triple it is formatted from (the 3-decimal float rendering is
presentational). -/
structure ConnLabel where
  feature1 : String
  feature2 : String
  similarity : ℝ

/-- A networkx edge with the attributes `build_graph` sets: `weight`,
`label` (the first contribution) and `connections`. -/
structure Edge where
  d1 : String
  d2 : String
  weight : ℝ
  label : ConnLabel
  connections : List ConnLabel

/-- A networkx undirected graph as `build_graph` uses it. -/
structure Graph where
  nodes : List String
  edges : List Edge

/-- `G.has_edge(a, b)` (undirected). -/
def edgeMatches (e : Edge) (a b : String) : Bool :=
  (e.d1 == a && e.d2 == b) || (e.d1 == b && e.d2 == a)

def hasEdge (G : Graph) (a b : String) : Bool :=
  G.edges.any (fun e => edgeMatches e a b)

/-- Lines 122–127: strengthening an existing edge —
`weight = max(existing_weight, similarity)`,
`connections = existing_connections + [edge_label]`. -/
def updateEdge (e : Edge) (similarity : ℝ) (edge_label : ConnLabel) : Edge :=
  { e with weight := max e.weight similarity
           connections := e.connections ++ [edge_label] }

/-- Lines 121–133: add a new edge between `dataset1` and `dataset2`, or
strengthen the existing one. -/
def addOrUpdateEdge (G : Graph) (dataset1 dataset2 : String)
    (similarity : ℝ) (edge_label : ConnLabel) : Graph :=
  if hasEdge G dataset1 dataset2 then
    { G with edges :=
        G.edges.map (fun e =>
          if edgeMatches e dataset1 dataset2 then updateEdge e similarity edge_label
          else e) }
  else
    { G with edges :=
        G.edges ++ [{ d1 := dataset1, d2 := dataset2, weight := similarity
                      label := edge_label, connections := [edge_label] }] }

/-- The body of the double loop of `build_graph` (lines 87–135) for one pair
of records; the `Nat` component is the `connections_found` counter. -/
noncomputable def processPair (similarity_threshold : ℝ)
    (Gn : Graph × Nat) (r1 r2 : FeatRecord) : Graph × Nat :=
  let dataset1 := datasetName r1.dataset_id
  let dataset2 := datasetName r2.dataset_id
  if dataset1 = dataset2 then Gn
  else
    let similarity := cosineSim r1.embedding r2.embedding
    if similarity > similarity_threshold then
      let edge_label : ConnLabel := ⟨r1.column_name, r2.column_name, similarity⟩
      (addOrUpdateEdge Gn.1 dataset1 dataset2 similarity edge_label, Gn.2 + 1)
    else Gn

/-- The index pairs `(i, j)` with `i < j`, in the order of the source's
`for i in range(n): for j in range(i+1, n)` loops. -/
def pairsOf : List α → List (α × α)
  | [] => []
  | x :: xs => (xs.map (fun y => (x, y))) ++ pairsOf xs

/-- `graph_builder.build_graph` (lines 38–157), restricted to its
algorithmic core: the ChromaDB read is replaced by the list of stored
records (ids, embeddings and metadatas are parallel by construction, so the
length-mismatch early return cannot fire), and the empty-store early return
yields the empty `nx.Graph()`.  Nodes are the deduplicated base filenames
(Python builds a `set`; iteration order is irrelevant to every claim). -/
noncomputable def build_graph (similarity_threshold : ℝ)
    (records : List FeatRecord) : Graph :=
  if records.isEmpty then ⟨[], []⟩
  else
    let all_datasets := (records.map (fun r => datasetName r.dataset_id)).dedup
    let G0 : Graph := ⟨all_datasets, []⟩
    ((pairsOf records).foldl
      (fun Gn p => processPair similarity_threshold Gn p.1 p.2) (G0, 0)).1

/-! ## Relationship analyzer (src/tools/graph_builder.py, lines 166–207) -/

/-- `G.number_of_nodes()` (networkx nodes form a set). -/
def numberOfNodes (G : Graph) : Nat := G.nodes.dedup.length

/-- `G.number_of_edges()`. -/
def numberOfEdges (G : Graph) : Nat := G.edges.length

/-- Degree of a node: the number of incident edges. -/
def degree (G : Graph) (x : String) : Nat :=
  G.edges.countP (fun e => e.d1 == x || e.d2 == x)

/-- `nx.degree_centrality`: degree divided by `n - 1`; for a graph with at
most one node, networkx maps every node to `1`. -/
def degree_centrality (G : Graph) : List (String × ℚ) :=
  let ns := G.nodes.dedup
  if ns.length ≤ 1 then ns.map (fun n => (n, 1))
  else ns.map (fun n => (n, (degree G n : ℚ) / ((ns.length : ℚ) - 1)))

/-- `nx.density`: `2m / (n (n - 1))`, and `0` when `n ≤ 1` or `m = 0`. -/
def density (G : Graph) : ℚ :=
  let n := numberOfNodes G
  let m := numberOfEdges G
  if n ≤ 1 ∨ m = 0 then 0
  else 2 * (m : ℚ) / ((n : ℚ) * ((n : ℚ) - 1))

/-- Merge the components containing `a` and `b` (union–find step used to
model `nx.number_connected_components`). -/
def compsUnion (cs : List (List String)) (a b : String) : List (List String) :=
  let ca := (cs.find? (fun c => c.contains a)).getD [a]
  let cb := (cs.find? (fun c => c.contains b)).getD [b]
  if ca = cb then cs
  else (ca ++ cb) :: cs.filter (fun c => !(c == ca) && !(c == cb))

/-- `nx.number_connected_components`: maximal connected subgraph count. -/
def numberConnectedComponents (G : Graph) : Nat :=
  (G.edges.foldl (fun cs e => compsUnion cs e.d1 e.d2)
    (G.nodes.dedup.map (fun n => [n]))).length

/-- One entry of the `strongest_connections` list (lines 193–199). -/
structure StrongConn where
  dataset1 : String
  dataset2 : String
  similarity : ℝ
  feature_connections : Nat
  connection_details : List ConnLabel

/-- The analysis dictionary: each Python dict key is an `Option` field, so
key presence is `Option.isSome`. -/
structure Analysis where
  message : Option String
  total_datasets : Option Nat
  total_connections : Option Nat
  connected_components : Option Nat
  graph_density : Option ℚ
  most_connected_datasets : Option (List (String × ℚ))
  strongest_connections : Option (List StrongConn)

/-- `graph_builder.analyze_graph_relationships` (lines 166–207).  Python's
`sorted(..., reverse=True)` is a stable descending sort, modelled with
`List.mergeSort` on the reversed order. -/
noncomputable def analyze_graph_relationships (G : Graph) : Analysis :=
  if numberOfNodes G = 0 then
    { message := some "Empty graph - no relationships to analyze"
      total_datasets := none, total_connections := none
      connected_components := none, graph_density := none
      most_connected_datasets := none, strongest_connections := none }
  else
    { message := none
      total_datasets := some (numberOfNodes G)
      total_connections := some (numberOfEdges G)
      connected_components := some (numberConnectedComponents G)
      graph_density := some (density G)
      most_connected_datasets :=
        some (((degree_centrality G).mergeSort
          (fun a b => decide (b.2 ≤ a.2))).take 5)
      strongest_connections :=
        if numberOfEdges G > 0 then
          some (((G.edges.map (fun e =>
            { dataset1 := e.d1, dataset2 := e.d2, similarity := e.weight
              feature_connections := e.connections.length
              connection_details := e.connections : StrongConn })).mergeSort
            (fun a b => decide (b.similarity ≤ a.similarity))).take 10)
        else none }

/-! ## Extraction pipeline (src/tools/feature_extractor.py, lines 186–289)

External collaborators are parameters:
* `describe` models `get_llm_response` applied to the prompt built from the
  column name and its metadata (src/tools/llm_manager.py falls off the end
  of its provider loop when every provider fails, returning `None`, which
  the call site's tuple unpacking turns into a `TypeError` caught by the
  per-column `except`) — `none` is that all-providers-failed outcome, and
  `some (text, provider)` a provider's response;
* `embed` models `PubMedEmbedding.embed_documents([text])[0]`;
* the ChromaDB `features` collection is the list of stored records. -/

/-- Python's `str.strip()` (`column.strip()`, `semantic_meaning.strip()`),
implemented structurally over the character list so that concrete runs are
kernel-reducible. -/
def pyStrip (s : String) : String :=
  ((s.toList.dropWhile Char.isWhitespace).reverse.dropWhile
    Char.isWhitespace).reverse.asString

/-- A record in the `features` collection: the id `f"{file_path}::{column}"`,
its embedding, and the claim-relevant metadata entries (`dataset_id`,
`column_name`, `semantic_meaning`, `llm_provider`; the remaining serialized
profile fields are inspected by no claim). -/
structure StoredRecord where
  id : String
  dataset_id : String
  column_name : String
  semantic_meaning : String
  llm_provider : String
  embedding : List ℚ
deriving DecidableEq

/-- `collection.add(ids=[r.id], ...)`: ChromaDB's `add` does *not* replace an
existing id — a duplicate add is rejected (a logged warning and skip in the
chromadb versions this code targets; in versions that raise instead, the
per-column `except` catches the error), so in either case the store keeps
the record already present under the key. -/
def storeAdd (store : List StoredRecord) (r : StoredRecord) : List StoredRecord :=
  if store.any (fun x => x.id == r.id) then store else store ++ [r]

/-- The mutable state of one `analyze_and_embed_features` run: the
collection plus the `processed_count` / `successful_embeddings` /
`failed_features` trackers. -/
structure RunState where
  store : List StoredRecord
  processed_count : Nat
  successful_embeddings : Nat
  failed_features : List String
deriving DecidableEq

/-- The loop body of `analyze_and_embed_features` (lines 212–278) for one
column.  A blank name is skipped before `processed_count` increments; a
`ZeroDivisionError` from `get_feature_metadata`, an exhausted describer
(`None` unpacking → `TypeError`) and a falsy (empty) response all land the
column in `failed_features` and continue with the next column. -/
def processColumn (describe : String → Metadata → Option (String × String))
    (embed : String → List ℚ) (parse : String → Option String)
    (file_path : String) (st : RunState) (col : String × Series) : RunState :=
  let column := col.1
  if pyStrip column = "" then st
  else
    let st := { st with processed_count := st.processed_count + 1 }
    match get_feature_metadata parse col.2 with
    | .error _ => { st with failed_features := st.failed_features ++ [column] }
    | .ok metadata =>
      match describe column metadata with
      | none => { st with failed_features := st.failed_features ++ [column] }
      | some (semantic_meaning, provider) =>
        if semantic_meaning ≠ "" then
          let embedding_text :=
            "Feature: " ++ column ++ ", Type: " ++ metadata.feature_type ++
            ", Meaning: " ++ pyStrip semantic_meaning
          let embedding := embed embedding_text
          let record : StoredRecord :=
            { id := file_path ++ "::" ++ column
              dataset_id := file_path
              column_name := column
              semantic_meaning := pyStrip semantic_meaning
              llm_provider := provider
              embedding := embedding }
          { st with store := storeAdd st.store record
                    successful_embeddings := st.successful_embeddings + 1 }
        else { st with failed_features := st.failed_features ++ [column] }

/-- `feature_extractor.analyze_and_embed_features` restricted to its
algorithmic core: the dataset sample is the list of (name, column) pairs,
and the interactive skip prompt, rate-limit sleep and console summary are
outside the embedding. -/
def analyze_and_embed_features
    (describe : String → Metadata → Option (String × String))
    (embed : String → List ℚ) (parse : String → Option String)
    (file_path : String) (columns : List (String × Series))
    (store0 : List StoredRecord) : RunState :=
  columns.foldl (processColumn describe embed parse file_path)
    { store := store0, processed_count := 0, successful_embeddings := 0
      failed_features := [] }

/-- The end-of-run success rate (line 288):
`successful / processed * 100` when `processed_count > 0`, else `0%`. -/
def success_rate (st : RunState) : ℚ :=
  if st.processed_count > 0 then
    (st.successful_embeddings : ℚ) / (st.processed_count : ℚ) * 100
  else 0

/-- The record that `processColumn` would add for a column, `none` when the
column is skipped or fails; used to factor the store evolution out of the
counter bookkeeping. -/
def columnRecord? (describe : String → Metadata → Option (String × String))
    (embed : String → List ℚ) (parse : String → Option String)
    (file_path : String) (col : String × Series) : Option StoredRecord :=
  let column := col.1
  if pyStrip column = "" then none
  else
    match get_feature_metadata parse col.2 with
    | .error _ => none
    | .ok metadata =>
      match describe column metadata with
      | none => none
      | some (semantic_meaning, provider) =>
        if semantic_meaning ≠ "" then
          some { id := file_path ++ "::" ++ column
                 dataset_id := file_path
                 column_name := column
                 semantic_meaning := pyStrip semantic_meaning
                 llm_provider := provider
                 embedding := embed ("Feature: " ++ column ++ ", Type: " ++
                   metadata.feature_type ++ ", Meaning: " ++ pyStrip semantic_meaning) }
        else none

deriving instance DecidableEq for Except

/-! ## The uniqueness ratio as the spec words it (refinement reference for
claim C6) -/

/-- The spec's definition of the uniqueness ratio: distinct non-null values
divided by the non-null count, `0` when that count is `0`.  (The source
divides by the total row count instead — compare `get_feature_metadata`.) -/
def specUniquenessRatio (s : Series) : ℚ :=
  if s.dropNulls.length = 0 then 0
  else (s.dropNulls.dedup.length : ℚ) / (s.dropNulls.length : ℚ)

/-! ## Claims about the profiler -/

/-- **C2** (code bug): for a column with zero rows, `get_feature_metadata`
does not return a profile at all — line 71 computes
`series.null_count() / total_values * 100` without any guard, so the call
raises `ZeroDivisionError` (only `uniqueness_ratio` on line 72 is guarded,
which shows the zero-row case was meant to be handled). -/
theorem C2_empty_column_raises (parse : String → Option String) (d : Dtype) :
    get_feature_metadata parse ⟨d, []⟩ =
      .error "ZeroDivisionError: division by zero" := rfl

/-- **C6** (counterexample): on the two-row column `[some "x", null]` the
profile's `uniqueness_ratio` is `1/2` — one distinct non-null value divided
by the total row count *including* the null — while the claim's definition
(distinct non-null over non-null-eligible count) gives `1`. -/
theorem C6_counterexample :
    (get_feature_metadata (fun _ => none) ⟨.tString, [some "x", none]⟩).map
        (fun m => m.uniqueness_ratio) = .ok (1/2) ∧
    specUniquenessRatio ⟨.tString, [some "x", none]⟩ = 1 ∧
    (1/2 : ℚ) ≠ 1 := by
  have h1 : (List.filterMap id [some "x", none] : List String) = ["x"] := by decide
  have h2 : (["x"] : List String).dedup = ["x"] := by decide
  refine ⟨?_, ?_, by norm_num⟩
  · norm_num +decide [get_feature_metadata, Series.dropNulls, Series.nullCount,
      round2, dtypeName, valueCountsOf, Except.map, h1, h2]
  · norm_num [specUniquenessRatio, Series.dropNulls, h1, h2]

/-- **C6** (amended): for every non-empty column the profile's
`uniqueness_ratio` equals the number of distinct non-null values divided by
the *total row count including nulls* (rounded to two decimals), and it is
`0` when there are no non-null values. -/
theorem C6_uniqueness_ratio (parse : String → Option String) (s : Series)
    (h : 0 < s.values.length) :
    (get_feature_metadata parse s).map (fun m => m.uniqueness_ratio) =
      .ok (round2 ((s.dropNulls.dedup.length : ℚ) / (s.values.length : ℚ))) := by
  have hne : ¬ (s.values.length = 0) := Nat.pos_iff_ne_zero.mp h
  unfold get_feature_metadata
  simp only [hne, if_false, gt_iff_lt, h, if_true]
  repeat' split
  all_goals rfl

/-- Witness for C6: the amended statement evaluated on the `[some "x", null]`
column, where the ratio is `round2 (1/2) = 1/2`. -/
theorem C6_uniqueness_ratio_witness :
    (get_feature_metadata (fun _ => none) ⟨.tString, [some "x", none]⟩).map
        (fun m => m.uniqueness_ratio) = .ok (1/2) := by
  have h1 : (List.filterMap id [some "x", none] : List String) = ["x"] := by decide
  have h2 : (["x"] : List String).dedup = ["x"] := by decide
  have hmain := C6_uniqueness_ratio (fun _ => none) ⟨.tString, [some "x", none]⟩
    (by norm_num)
  simp only [Series.dropNulls, h1, h2] at hmain
  norm_num [round2] at hmain
  simpa using hmain

/-- **C7** (code bug): the `datetime_str` branch of the profiler is dead
code — `non_null_series.str.to_datetime(errors='ignore')` raises `TypeError`
because polars' `to_datetime` accepts no `errors` keyword, and
`except (ValueError, TypeError): pass` swallows it — so even a short,
all-distinct string column *every* value of which is a date, such as
`["2020-01-01", "2021-05-02"]`, is classified `id_str` (uniqueness `1 >
0.9`, mean length `10 ≤ 50`) and never `datetime_str` with min/max
statistics, whatever the attempted conversion would have returned. -/
theorem C7_datetime_str_dead (parse : String → Option String) :
    (get_feature_metadata parse
        ⟨.tString, [some "2020-01-01", some "2021-05-02"]⟩).map
      (fun m => m.feature_type) = .ok "id_str" := by
  have h1 : (List.filterMap id [some "2020-01-01", some "2021-05-02"] :
      List String) = ["2020-01-01", "2021-05-02"] := by decide
  have h2 : (["2020-01-01", "2021-05-02"] : List String).dedup =
      ["2020-01-01", "2021-05-02"] := by decide
  have hl1 : ("2020-01-01" : String).length = 10 := by decide
  have hl2 : ("2021-05-02" : String).length = 10 := by decide
  have h3 : avgLen ["2020-01-01", "2021-05-02"] = 10 := by
    norm_num [avgLen, hl1, hl2]
  norm_num +decide [get_feature_metadata, Series.dropNulls, Series.nullCount,
    round2, dtypeName, Except.map, h1, h2, h3]

/-! ## Claims about the graph builder -/

/-- **C3**: in the pair loop of `build_graph`, a contribution (the
`connections_found` increment, which is what adds or strengthens an edge) is
registered iff the two records belong to different datasets and their cosine
similarity is *strictly* greater than the threshold; similarity exactly
equal to the threshold leaves the graph and the counter untouched; and the
cosine similarity is `0` whenever either embedding has zero norm. -/
theorem C3_threshold_strict (t : ℝ) (Gn : Graph × Nat) (r1 r2 : FeatRecord) :
    ((processPair t Gn r1 r2).2 = Gn.2 + 1 ↔
      (datasetName r1.dataset_id ≠ datasetName r2.dataset_id ∧
       cosineSim r1.embedding r2.embedding > t)) ∧
    (cosineSim r1.embedding r2.embedding = t → processPair t Gn r1 r2 = Gn) ∧
    (∀ e1 e2 : List ℚ,
      (Real.sqrt ((sumSq e1 : ℚ) : ℝ) = 0 ∨ Real.sqrt ((sumSq e2 : ℚ) : ℝ) = 0) →
      cosineSim e1 e2 = 0) := by
  refine ⟨?_, ?_, ?_⟩
  · simp only [processPair]
    split
    · rename_i hd
      constructor
      · intro hx
        exact absurd hx (by omega)
      · rintro ⟨hne, _⟩
        exact absurd hd hne
    · rename_i hd
      split
      · rename_i hgt
        exact ⟨fun _ => ⟨hd, hgt⟩, fun _ => rfl⟩
      · rename_i hgt
        constructor
        · intro hx
          exact absurd hx (by omega)
        · rintro ⟨_, hg⟩
          exact absurd hg hgt
  · intro heq
    simp only [processPair]
    split
    · rfl
    · rw [if_neg]
      rw [heq]
      exact lt_irrefl t
  · intro e1 e2 h0
    rcases h0 with h | h <;> simp [cosineSim, h]

/-- Witness for C3: with unit embeddings `[1]` and `[1]` the similarity is
exactly `1`, so at threshold `t = 1` the pair registers nothing; and the
zero embedding `[0]` has similarity `0` against `[1]`. -/
theorem C3_threshold_strict_witness :
    processPair 1 (⟨[], []⟩, 0) ⟨"a.csv", "c1", [1]⟩ ⟨"b.csv", "c2", [1]⟩ =
      (⟨[], []⟩, 0) ∧
    cosineSim [0] [1] = 0 := by
  constructor
  · refine (C3_threshold_strict 1 (⟨[], []⟩, 0)
      ⟨"a.csv", "c1", [1]⟩ ⟨"b.csv", "c2", [1]⟩).2.1 ?_
    simp [cosineSim, sumSq, dotProduct]
  · exact (C3_threshold_strict 1 (⟨[], []⟩, 0)
      ⟨"a.csv", "c1", [1]⟩ ⟨"b.csv", "c2", [1]⟩).2.2 [0] [1]
      (Or.inl (by norm_num [sumSq]))

/-- **C4**: when a contributing pair is found between a dataset pair that
already has an edge, every matching edge is replaced by `updateEdge`, whose
weight is `max(existing, new)` — never smaller than the existing weight —
and whose `connections` list is the existing list with the new label
appended at the end (one element longer, nothing lost). -/
theorem C4_weight_monotone (G : Graph) (d1 d2 : String) (sim : ℝ)
    (lbl : ConnLabel) (h : hasEdge G d1 d2 = true) (e : Edge)
    (he : e ∈ G.edges) (hm : edgeMatches e d1 d2 = true) :
    updateEdge e sim lbl ∈ (addOrUpdateEdge G d1 d2 sim lbl).edges ∧
    (updateEdge e sim lbl).weight = max e.weight sim ∧
    e.weight ≤ (updateEdge e sim lbl).weight ∧
    (updateEdge e sim lbl).connections = e.connections ++ [lbl] ∧
    (updateEdge e sim lbl).connections.length = e.connections.length + 1 := by
  refine ⟨?_, rfl, le_max_left _ _, rfl, by simp [updateEdge]⟩
  unfold addOrUpdateEdge
  rw [if_pos h]
  have := List.mem_map_of_mem
    (fun e => if edgeMatches e d1 d2 = true then updateEdge e sim lbl else e) he
  simpa [hm] using this

/-- Witness for C4: strengthening the single edge of a one-edge graph with a
new similarity `3/4` over an old weight `1/2`. -/
theorem C4_weight_monotone_witness :
    updateEdge ⟨"a.csv", "b.csv", (1/2 : ℝ), ⟨"x", "y", (1/2 : ℝ)⟩,
        [⟨"x", "y", (1/2 : ℝ)⟩]⟩ (3/4) ⟨"u", "v", (3/4 : ℝ)⟩ ∈
      (addOrUpdateEdge
        ⟨["a.csv", "b.csv"],
         [⟨"a.csv", "b.csv", (1/2 : ℝ), ⟨"x", "y", (1/2 : ℝ)⟩,
           [⟨"x", "y", (1/2 : ℝ)⟩]⟩]⟩
        "a.csv" "b.csv" (3/4) ⟨"u", "v", (3/4 : ℝ)⟩).edges ∧
    ((1/2 : ℝ)) ≤ (updateEdge ⟨"a.csv", "b.csv", (1/2 : ℝ), ⟨"x", "y", (1/2 : ℝ)⟩,
        [⟨"x", "y", (1/2 : ℝ)⟩]⟩ (3/4) ⟨"u", "v", (3/4 : ℝ)⟩).weight := by
  have hmain := C4_weight_monotone
    ⟨["a.csv", "b.csv"],
     [⟨"a.csv", "b.csv", (1/2 : ℝ), ⟨"x", "y", (1/2 : ℝ)⟩,
       [⟨"x", "y", (1/2 : ℝ)⟩]⟩]⟩
    "a.csv" "b.csv" (3/4) ⟨"u", "v", (3/4 : ℝ)⟩
    (by simp [hasEdge, edgeMatches])
    ⟨"a.csv", "b.csv", (1/2 : ℝ), ⟨"x", "y", (1/2 : ℝ)⟩, [⟨"x", "y", (1/2 : ℝ)⟩]⟩
    (by simp)
    (by simp [edgeMatches])
  exact ⟨hmain.1, hmain.2.2.1⟩

/-- `processPair` preserves the absence of self-loops. -/
lemma processPair_no_self_loop (t : ℝ) (Gn : Graph × Nat) (r1 r2 : FeatRecord)
    (h : (Gn.1.edges.all (fun e => !(e.d1 == e.d2))) = true) :
    (((processPair t Gn r1 r2).1).edges.all (fun e => !(e.d1 == e.d2))) = true := by
  simp only [processPair]
  split
  · exact h
  · rename_i hd
    split
    · unfold addOrUpdateEdge
      split
      · simp only [List.all_map]
        rw [List.all_eq_true] at h ⊢
        intro e hee
        have := h e hee
        simp only [Function.comp_apply]
        split
        · simpa [updateEdge] using this
        · exact this
      · simp only [List.all_append, Bool.and_eq_true]
        refine ⟨h, ?_⟩
        simp [hd]
    · exact h

/-- The pair-loop fold preserves the absence of self-loops. -/
lemma foldl_no_self_loop (t : ℝ) (ps : List (FeatRecord × FeatRecord))
    (Gn : Graph × Nat)
    (h : (Gn.1.edges.all (fun e => !(e.d1 == e.d2))) = true) :
    (((ps.foldl (fun a p => processPair t a p.1 p.2) Gn).1).edges.all
      (fun e => !(e.d1 == e.d2))) = true := by
  induction ps generalizing Gn with
  | nil => exact h
  | cons p ps ih =>
    exact ih (processPair t Gn p.1 p.2) (processPair_no_self_loop t Gn p.1 p.2 h)

/-- **C5**: no graph returned by `build_graph` has a self-loop — every edge
joins two distinct base-filename nodes — and a record pair whose dataset ids
collapse to the same base filename is never connected: `processPair` leaves
the graph (and the contribution counter) untouched for such a pair. -/
theorem C5_no_self_loops :
    (∀ (t : ℝ) (records : List FeatRecord),
      ((build_graph t records).edges.all (fun e => !(e.d1 == e.d2))) = true) ∧
    (∀ (t : ℝ) (Gn : Graph × Nat) (r1 r2 : FeatRecord),
      datasetName r1.dataset_id = datasetName r2.dataset_id →
      processPair t Gn r1 r2 = Gn) := by
  constructor
  · intro t records
    simp only [build_graph]
    split
    · rfl
    · exact foldl_no_self_loop t (pairsOf records) _ rfl
  · intro t Gn r1 r2 hd
    simp only [processPair]
    rw [if_pos hd]

/-- Witness for C5: `"data/a.csv"` and `"dir\\a.csv"` collapse to the same
base filename `"a.csv"`, so the pair contributes nothing. -/
theorem C5_no_self_loops_witness :
    processPair 0 (⟨[], []⟩, 0) ⟨"data/a.csv", "c1", [1]⟩
      ⟨"dir\\a.csv", "c2", [1]⟩ = (⟨[], []⟩, 0) := by
  exact C5_no_self_loops.2 0 (⟨[], []⟩, 0) ⟨"data/a.csv", "c1", [1]⟩
    ⟨"dir\\a.csv", "c2", [1]⟩ (by decide)

/-- **C10**: for a graph with at least one node, the analysis dictionary has
the `total_datasets`, `total_connections`, `connected_components`,
`graph_density` and `most_connected_datasets` keys (and no `message`), and
the `strongest_connections` key is absent exactly when the graph has zero
edges — it is never mapped to an empty list. -/
theorem C10_strongest_connections_key (G : Graph) (h : G.nodes ≠ []) :
    (analyze_graph_relationships G).message = none ∧
    (analyze_graph_relationships G).total_datasets = some (numberOfNodes G) ∧
    (analyze_graph_relationships G).total_connections = some (numberOfEdges G) ∧
    ((analyze_graph_relationships G).connected_components).isSome = true ∧
    ((analyze_graph_relationships G).graph_density).isSome = true ∧
    ((analyze_graph_relationships G).most_connected_datasets).isSome = true ∧
    ((analyze_graph_relationships G).strongest_connections = none ↔
      G.edges = []) := by
  have hn : ¬ (numberOfNodes G = 0) := by
    simp only [numberOfNodes, List.length_eq_zero, List.dedup_eq_nil]
    exact h
  unfold analyze_graph_relationships
  rw [if_neg hn]
  refine ⟨rfl, rfl, rfl, rfl, rfl, rfl, ?_⟩
  constructor
  · intro hx
    by_contra hne
    have hpos : numberOfEdges G > 0 := by
      simp only [numberOfEdges]
      exact List.length_pos.mpr hne
    rw [if_pos hpos] at hx
    exact Option.noConfusion hx
  · intro hx
    rw [if_neg]
    simp [numberOfEdges, hx]

/-- Witness for C10: a one-node, zero-edge graph has all the statistics keys
but no `strongest_connections` key. -/
theorem C10_strongest_connections_key_witness :
    (analyze_graph_relationships ⟨["a"], []⟩).total_datasets = some 1 ∧
    (analyze_graph_relationships ⟨["a"], []⟩).strongest_connections = none := by
  have hmain := C10_strongest_connections_key ⟨["a"], []⟩ (by simp)
  refine ⟨?_, hmain.2.2.2.2.2.2.mpr rfl⟩
  have h1 : numberOfNodes (⟨["a"], []⟩ : Graph) = 1 := by decide
  rw [hmain.2.1, h1]

/-! ## Store-evolution lemmas for the extraction pipeline -/

/-- The store component of one loop iteration, factored through
`columnRecord?`. -/
def storeStep (describe : String → Metadata → Option (String × String))
    (embed : String → List ℚ) (parse : String → Option String)
    (fp : String) (S : List StoredRecord) (col : String × Series) :
    List StoredRecord :=
  match columnRecord? describe embed parse fp col with
  | none => S
  | some r => storeAdd S r

/-- The store evolution of a whole run, separated from the counters. -/
def storeFold (describe : String → Metadata → Option (String × String))
    (embed : String → List ℚ) (parse : String → Option String)
    (fp : String) (store : List StoredRecord)
    (cols : List (String × Series)) : List StoredRecord :=
  cols.foldl (storeStep describe embed parse fp) store

lemma storeFold_cons (describe : String → Metadata → Option (String × String))
    (embed : String → List ℚ) (parse : String → Option String) (fp : String)
    (S : List StoredRecord) (c : String × Series)
    (cs : List (String × Series)) :
    storeFold describe embed parse fp S (c :: cs) =
      storeFold describe embed parse fp (storeStep describe embed parse fp S c)
        cs := rfl

lemma processColumn_store
    (describe : String → Metadata → Option (String × String))
    (embed : String → List ℚ) (parse : String → Option String) (fp : String)
    (st : RunState) (col : String × Series) :
    (processColumn describe embed parse fp st col).store =
      storeStep describe embed parse fp st.store col := by
  unfold processColumn storeStep columnRecord?
  by_cases h1 : pyStrip col.1 = ""
  · simp [h1]
  · simp only [h1, if_false]
    cases hgm : get_feature_metadata parse col.2 with
    | error e => simp
    | ok m =>
      cases hd : describe col.1 m with
      | none => simp [hd]
      | some pr =>
        obtain ⟨sm, prov⟩ := pr
        by_cases hsm : sm = ""
        · simp [hd, hsm]
        · simp [hd, hsm]

lemma run_store (describe : String → Metadata → Option (String × String))
    (embed : String → List ℚ) (parse : String → Option String) (fp : String)
    (cols : List (String × Series)) : ∀ st : RunState,
    (cols.foldl (processColumn describe embed parse fp) st).store =
      storeFold describe embed parse fp st.store cols := by
  induction cols with
  | nil => intro st; rfl
  | cons c cs ih =>
    intro st
    rw [List.foldl_cons, ih, storeFold_cons, processColumn_store]

lemma mem_storeAdd {S : List StoredRecord} {r x : StoredRecord}
    (hx : x ∈ storeAdd S r) : x ∈ S ∨ x = r := by
  unfold storeAdd at hx
  split at hx
  · exact Or.inl hx
  · rcases List.mem_append.mp hx with h | h
    · exact Or.inl h
    · exact Or.inr (List.mem_singleton.mp h)

lemma mem_storeAdd_left {S : List StoredRecord} (r : StoredRecord) :
    ∀ x ∈ S, x ∈ storeAdd S r := by
  intro x hx
  unfold storeAdd
  split
  · exact hx
  · exact List.mem_append_left _ hx

lemma id_mem_storeAdd (S : List StoredRecord) (r : StoredRecord) :
    r.id ∈ (storeAdd S r).map (fun x => x.id) := by
  unfold storeAdd
  split
  · rename_i hany
    rw [List.any_eq_true] at hany
    obtain ⟨x, hx, hxe⟩ := hany
    exact List.mem_map.mpr ⟨x, hx, beq_iff_eq.mp hxe⟩
  · simp

lemma storeAdd_eq_of_mem (S : List StoredRecord) (r : StoredRecord)
    (h : r.id ∈ S.map (fun x => x.id)) : storeAdd S r = S := by
  unfold storeAdd
  rw [if_pos]
  rw [List.any_eq_true]
  obtain ⟨x, hx, hxe⟩ := List.mem_map.mp h
  exact ⟨x, hx, beq_iff_eq.mpr hxe⟩

lemma storeAdd_nodup (S : List StoredRecord) (r : StoredRecord)
    (h : (S.map (fun x => x.id)).Nodup) :
    ((storeAdd S r).map (fun x => x.id)).Nodup := by
  unfold storeAdd
  split
  · exact h
  · rename_i hany
    rw [List.map_append]
    rw [List.nodup_append]
    refine ⟨h, by simp, ?_⟩
    intro a ha hb
    simp only [List.map_cons, List.map_nil, List.mem_singleton] at hb
    subst hb
    obtain ⟨x, hx, hxe⟩ := List.mem_map.mp ha
    exact hany (List.any_eq_true.mpr ⟨x, hx, beq_iff_eq.mpr hxe⟩)

lemma storeStep_nodup (describe : String → Metadata → Option (String × String))
    (embed : String → List ℚ) (parse : String → Option String) (fp : String)
    (S : List StoredRecord) (col : String × Series)
    (h : (S.map (fun x => x.id)).Nodup) :
    (((storeStep describe embed parse fp S col).map (fun x => x.id)).Nodup) := by
  unfold storeStep
  split
  · exact h
  · exact storeAdd_nodup S _ h

lemma storeFold_nodup (describe : String → Metadata → Option (String × String))
    (embed : String → List ℚ) (parse : String → Option String) (fp : String)
    (cols : List (String × Series)) : ∀ S : List StoredRecord,
    (S.map (fun x => x.id)).Nodup →
    ((storeFold describe embed parse fp S cols).map (fun x => x.id)).Nodup := by
  induction cols with
  | nil => intro S h; exact h
  | cons c cs ih =>
    intro S h
    rw [storeFold_cons]
    exact ih _ (storeStep_nodup describe embed parse fp S c h)

lemma storeFold_mono (describe : String → Metadata → Option (String × String))
    (embed : String → List ℚ) (parse : String → Option String) (fp : String)
    (cols : List (String × Series)) : ∀ (S : List StoredRecord) (x : StoredRecord),
    x ∈ S → x ∈ storeFold describe embed parse fp S cols := by
  induction cols with
  | nil => intro S x hx; exact hx
  | cons c cs ih =>
    intro S x hx
    rw [storeFold_cons]
    refine ih _ x ?_
    unfold storeStep
    split
    · exact hx
    · exact mem_storeAdd_left _ x hx

lemma mem_storeFold (describe : String → Metadata → Option (String × String))
    (embed : String → List ℚ) (parse : String → Option String) (fp : String)
    (cols : List (String × Series)) : ∀ (S : List StoredRecord)
    (r : StoredRecord), r ∈ storeFold describe embed parse fp S cols →
    r ∈ S ∨ ∃ col, columnRecord? describe embed parse fp col = some r := by
  induction cols with
  | nil => intro S r h; exact Or.inl h
  | cons c cs ih =>
    intro S r h
    rw [storeFold_cons] at h
    rcases ih _ r h with h1 | h1
    · unfold storeStep at h1
      revert h1
      split
      · exact fun h1 => Or.inl h1
      · rename_i x hx
        intro h1
        rcases mem_storeAdd h1 with h2 | h2
        · exact Or.inl h2
        · exact Or.inr ⟨c, h2 ▸ hx⟩
    · exact Or.inr h1

lemma columnRecord_id_in_fold
    (describe : String → Metadata → Option (String × String))
    (embed : String → List ℚ) (parse : String → Option String) (fp : String)
    (cols : List (String × Series)) : ∀ (S : List StoredRecord)
    (col : String × Series), col ∈ cols → ∀ r : StoredRecord,
    columnRecord? describe embed parse fp col = some r →
    r.id ∈ (storeFold describe embed parse fp S cols).map (fun x => x.id) := by
  induction cols with
  | nil => intro S col hc; exact absurd hc (by simp)
  | cons c cs ih =>
    intro S col hc r hr
    rcases List.mem_cons.mp hc with h | h
    · subst h
      have h1 : r.id ∈ (storeStep describe embed parse fp S col).map
          (fun x => x.id) := by
        unfold storeStep
        rw [hr]
        exact id_mem_storeAdd S r
      obtain ⟨y, hy, hye⟩ := List.mem_map.mp h1
      rw [storeFold_cons]
      exact List.mem_map.mpr ⟨y, storeFold_mono describe embed parse fp cs _ y hy, hye⟩
    · rw [storeFold_cons]
      exact ih _ col h r hr

lemma storeFold_id_of_ids
    (describe : String → Metadata → Option (String × String))
    (embed : String → List ℚ) (parse : String → Option String) (fp : String)
    (cols : List (String × Series)) : ∀ T : List StoredRecord,
    (∀ col ∈ cols, ∀ r : StoredRecord,
      columnRecord? describe embed parse fp col = some r →
      r.id ∈ T.map (fun x => x.id)) →
    storeFold describe embed parse fp T cols = T := by
  induction cols with
  | nil => intro T _; rfl
  | cons c cs ih =>
    intro T hT
    rw [storeFold_cons]
    have hstep : storeStep describe embed parse fp T c = T := by
      unfold storeStep
      cases hc : columnRecord? describe embed parse fp c with
      | none => rfl
      | some r => exact storeAdd_eq_of_mem T r (hT c (by simp) r hc)
    rw [hstep]
    exact ih T (fun col hcol => hT col (by simp [hcol]))

lemma columnRecord?_none
    (describe : String → Metadata → Option (String × String))
    (embed : String → List ℚ) (parse : String → Option String) (fp : String)
    (col : String × Series) (hnone : ∀ c m, describe c m = none) :
    columnRecord? describe embed parse fp col = none := by
  unfold columnRecord?
  by_cases h1 : pyStrip col.1 = ""
  · simp [h1]
  · simp only [h1, if_false]
    cases hgm : get_feature_metadata parse col.2 with
    | error e => simp
    | ok m => simp [hnone col.1 m]

lemma columnRecord?_good
    (describe : String → Metadata → Option (String × String))
    (embed : String → List ℚ) (parse : String → Option String) (fp : String)
    (col : String × Series) (r : StoredRecord)
    (hdesc : ∀ c m sm prov, describe c m = some (sm, prov) → ¬ (pyStrip sm = ""))
    (hemb : ∀ text, embed text ≠ [])
    (h : columnRecord? describe embed parse fp col = some r) :
    ¬ (r.semantic_meaning = "") ∧ r.embedding ≠ [] := by
  unfold columnRecord? at h
  by_cases h1 : pyStrip col.1 = ""
  · rw [if_pos h1] at h
    exact absurd h (by simp)
  · rw [if_neg h1] at h
    cases hgm : get_feature_metadata parse col.2 with
    | error e => rw [hgm] at h; exact absurd h (by simp)
    | ok m =>
      rw [hgm] at h
      dsimp only at h
      cases hd : describe col.1 m with
      | none => rw [hd] at h; exact absurd h (by simp)
      | some pr =>
        obtain ⟨sm, prov⟩ := pr
        rw [hd] at h
        dsimp only at h
        by_cases hsm : sm = ""
        · rw [if_neg (by simp [hsm])] at h
          exact absurd h (by simp)
        · rw [if_pos (by simp [hsm])] at h
          cases h
          exact ⟨hdesc col.1 m sm prov hd, hemb _⟩

/-! ## Claims about the extraction pipeline -/

/-- **C1** (counterexample): a describer response of `" "` (whitespace only)
is a *non-empty* string, so the `if semantic_meaning:` truthiness gate
passes, yet what is persisted is `semantic_meaning.strip()` — the empty
string.  The run below stores exactly one record whose semantic description
is `""`, refuting the claim that every stored record has a non-empty
semantic description. -/
theorem C1_counterexample :
    ((analyze_and_embed_features (fun _ _ => some (" ", "groq"))
        (fun _ => [1]) (fun _ => none) "d.csv"
        [("age", ⟨.tInt, [some "1", some "2"]⟩)] []).store.map
      (fun r => r.semantic_meaning)) = [""] := by
  have h1 : (List.filterMap id [some "1", some "2"] : List String) =
      ["1", "2"] := by decide
  have h2 : (["1", "2"] : List String).dedup = ["1", "2"] := by decide
  have h3 : pyStrip "age" = "age" := by decide
  have h4 : pyStrip " " = "" := by decide
  norm_num +decide [analyze_and_embed_features, processColumn,
    get_feature_metadata, Series.dropNulls, Series.nullCount, round2,
    dtypeName, storeAdd, h1, h2, h3, h4]

/-- **C1** (amended): provided the describer's successful responses remain
non-empty after stripping and the vectorizer never returns an empty vector,
every record a run adds to the store has a non-empty `semantic_meaning` and
a non-empty `embedding` (the stored description is the stripped response, so
a whitespace-only response would store an empty description); and when the
describer fails for every column, zero records are stored. -/
theorem C1_no_partial_record
    (describe : String → Metadata → Option (String × String))
    (embed : String → List ℚ) (parse : String → Option String) (fp : String)
    (cols : List (String × Series)) (store0 : List StoredRecord)
    (hdesc : ∀ c m sm prov, describe c m = some (sm, prov) →
      ¬ (pyStrip sm = ""))
    (hemb : ∀ text, embed text ≠ []) :
    (∀ r ∈ (analyze_and_embed_features describe embed parse fp cols
        store0).store,
      r ∈ store0 ∨ (¬ (r.semantic_meaning = "") ∧ r.embedding ≠ [])) ∧
    ((∀ c m, describe c m = none) →
      (analyze_and_embed_features describe embed parse fp cols []).store =
        []) := by
  constructor
  · intro r hr
    unfold analyze_and_embed_features at hr
    rw [run_store] at hr
    rcases mem_storeFold describe embed parse fp cols _ r hr with h | ⟨col, hcol⟩
    · exact Or.inl h
    · exact Or.inr (columnRecord?_good describe embed parse fp col r hdesc hemb hcol)
  · intro hnone
    unfold analyze_and_embed_features
    rw [run_store]
    refine storeFold_id_of_ids describe embed parse fp cols _ ?_
    intro col hcol r hrr
    rw [columnRecord?_none describe embed parse fp col hnone] at hrr
    exact Option.noConfusion hrr

/-- Witness for C1: a run whose describer fails for every column stores
nothing. -/
theorem C1_no_partial_record_witness :
    (analyze_and_embed_features (fun _ _ => none) (fun _ => [1])
      (fun _ => none) "d.csv" [("age", ⟨.tInt, [some "1", some "2"]⟩)]
      []).store = [] := by
  exact (C1_no_partial_record (fun _ _ => none) (fun _ => [1]) (fun _ => none)
    "d.csv" [("age", ⟨.tInt, [some "1", some "2"]⟩)] []
    (fun c m sm prov h => Option.noConfusion h)
    (fun text => by simp)).2 (fun c m => rfl)

/-- **C8**: a column whose describer chain is exhausted (`get_llm_response`
returns `None`, whose unpacking raises the `TypeError` caught by the
per-column `except`) is appended to `failed_features`, the counters advance,
the store is untouched — and the loop is a fold, so the columns after it are
processed exactly as if the failure had not happened; the end-of-run success
rate is `0` when `processed_count` is `0`. -/
theorem C8_failure_containment
    (describe : String → Metadata → Option (String × String))
    (embed : String → List ℚ) (parse : String → Option String) (fp : String)
    (st : RunState) (column : String) (s : Series) (m : Metadata)
    (htrim : ¬ (pyStrip column = ""))
    (hgm : get_feature_metadata parse s = .ok m)
    (hd : describe column m = none) :
    (processColumn describe embed parse fp st (column, s) =
      { st with processed_count := st.processed_count + 1
                failed_features := st.failed_features ++ [column] }) ∧
    (∀ (cols1 cols2 : List (String × Series)) (st0 : RunState),
      List.foldl (processColumn describe embed parse fp) st0 (cols1 ++ cols2) =
        List.foldl (processColumn describe embed parse fp)
          (List.foldl (processColumn describe embed parse fp) st0 cols1)
          cols2) ∧
    (∀ st2 : RunState, st2.processed_count = 0 → success_rate st2 = 0) := by
  refine ⟨?_, ?_, ?_⟩
  · unfold processColumn
    simp [htrim, hgm, hd]
  · intro cols1 cols2 st0
    exact List.foldl_append _ _ _ _
  · intro st2 h2
    unfold success_rate
    rw [if_neg]
    simp [h2]

/-- Witness for C8: one column, all providers failing — the column lands in
`failed_features`, and the empty-run success rate is `0`. -/
theorem C8_failure_containment_witness :
    (processColumn (fun _ _ => none) (fun _ => [1]) (fun _ => none) "d.csv"
      { store := [], processed_count := 0, successful_embeddings := 0,
        failed_features := [] } ("age", ⟨.tInt, [some "1", some "2"]⟩) =
      { store := [], processed_count := 1, successful_embeddings := 0,
        failed_features := ["age"] }) ∧
    success_rate (⟨[], 0, 0, []⟩ : RunState) = 0 := by
  have h1 : (List.filterMap id [some "1", some "2"] : List String) =
      ["1", "2"] := by decide
  have h2 : (["1", "2"] : List String).dedup = ["1", "2"] := by decide
  have hgm : get_feature_metadata (fun _ => none)
      ⟨.tInt, [some "1", some "2"]⟩ =
      .ok { dtype := "Int64", nan_percentage := 0, num_unique := 2,
            uniqueness_ratio := 1, sample_values := ["1", "2"],
            feature_type := "id", descriptive_statistics := .noStats } := by
    norm_num +decide [get_feature_metadata, Series.dropNulls, Series.nullCount,
      round2, dtypeName, h1, h2]
  have hmain := C8_failure_containment (fun _ _ => none) (fun _ => [1])
    (fun _ => none) "d.csv"
    { store := [], processed_count := 0, successful_embeddings := 0,
      failed_features := [] }
    "age" ⟨.tInt, [some "1", some "2"]⟩ _ (by decide) hgm rfl
  exact ⟨by simpa using hmain.1, hmain.2.2 _ rfl⟩

/-- **C9** (counterexample): re-running extraction for a
`(dataset_id, column_name)` key that already has a stored record does *not*
replace it — `collection.add` rejects the duplicate id and the old record
(description `"old"`) survives, while the same run against an empty store
would have stored the new description.  This refutes the claimed
insert-or-replace semantics. -/
theorem C9_counterexample :
    ((analyze_and_embed_features (fun _ _ => some ("new", "groq"))
        (fun _ => [1]) (fun _ => none) "d.csv"
        [("age", ⟨.tInt, [some "1", some "2"]⟩)]
        [{ id := "d.csv::age", dataset_id := "d.csv", column_name := "age",
           semantic_meaning := "old", llm_provider := "groq",
           embedding := [1] }]).store.map (fun r => r.semantic_meaning)) =
      ["old"] ∧
    ((analyze_and_embed_features (fun _ _ => some ("new", "groq"))
        (fun _ => [1]) (fun _ => none) "d.csv"
        [("age", ⟨.tInt, [some "1", some "2"]⟩)] []).store.map
      (fun r => r.semantic_meaning)) = ["new"] := by
  have h1 : (List.filterMap id [some "1", some "2"] : List String) =
      ["1", "2"] := by decide
  have h2 : (["1", "2"] : List String).dedup = ["1", "2"] := by decide
  have h3 : pyStrip "age" = "age" := by decide
  have h4 : pyStrip "new" = "new" := by decide
  constructor <;>
    norm_num +decide [analyze_and_embed_features, processColumn,
      get_feature_metadata, Series.dropNulls, Series.nullCount, round2,
      dtypeName, storeAdd, h1, h2, h3, h4]

/-- **C9** (amended): the store holds at most one record per key (id
`Nodup`-ness is preserved), and running the same extraction twice leaves the
store in the same state as running it once — but because `collection.add`
*keeps* the record already stored under an existing key (it never
replaces), not because the record is overwritten. -/
theorem C9_no_replace
    (describe : String → Metadata → Option (String × String))
    (embed : String → List ℚ) (parse : String → Option String) (fp : String)
    (cols : List (String × Series)) (store0 : List StoredRecord)
    (h : (store0.map (fun r => r.id)).Nodup) :
    ((analyze_and_embed_features describe embed parse fp cols store0).store.map
      (fun r => r.id)).Nodup ∧
    (analyze_and_embed_features describe embed parse fp cols
        ((analyze_and_embed_features describe embed parse fp cols
          store0).store)).store =
      (analyze_and_embed_features describe embed parse fp cols store0).store ∧
    (∀ (S : List StoredRecord) (r : StoredRecord),
      r.id ∈ S.map (fun x => x.id) → storeAdd S r = S) := by
  refine ⟨?_, ?_, fun S r hr => storeAdd_eq_of_mem S r hr⟩
  · unfold analyze_and_embed_features
    rw [run_store]
    exact storeFold_nodup describe embed parse fp cols _ h
  · unfold analyze_and_embed_features
    rw [run_store, run_store]
    refine storeFold_id_of_ids describe embed parse fp cols _ ?_
    intro col hcol r hr
    exact columnRecord_id_in_fold describe embed parse fp cols _ col hcol r hr

/-- Witness for C9: adding a record under an id that is already present
leaves the store unchanged (the old record survives). -/
theorem C9_no_replace_witness :
    storeAdd
      [{ id := "d.csv::age", dataset_id := "d.csv", column_name := "age",
         semantic_meaning := "old", llm_provider := "groq",
         embedding := [1] }]
      { id := "d.csv::age", dataset_id := "d.csv", column_name := "age",
        semantic_meaning := "new", llm_provider := "groq",
        embedding := [1] } =
      [{ id := "d.csv::age", dataset_id := "d.csv", column_name := "age",
         semantic_meaning := "old", llm_provider := "groq",
         embedding := [1] }] := by
  exact (C9_no_replace (fun _ _ => some ("new", "groq")) (fun _ => [1])
    (fun _ => none) "d.csv" [] [] (by simp)).2.2 _ _ (by simp)

end DatasetAnalyzer
